import Mathlib

/-
A shallow embedding of the GST reconciliation & risk engine of this
repository (FastAPI + Neo4j backend):

  * the matching detectors of `backend/app/core/reconciler.py`
    (missing-in-GSTR2B / missing-in-GSTR1, value, rate, excess-ITC and
    duplicate-invoice detectors),
  * the vendor risk scorer of `backend/app/core/risk_model.py`,
  * the circular-trade query of `backend/app/core/graph_db.py`,
  * the in-memory result cache of `backend/app/api/reconcile.py`.

Modelling conventions:
  * Cypher queries are embedded as list computations over an explicit
    graph-store state (`GraphStore`): an invoice node carries its
    properties plus its `CONTAINS_OUTWARD` / `CONTAINS_INWARD` links,
    one list entry per link, so that query result rows are reproduced
    faithfully (one row per matched link).
  * Monetary amounts and scores are Python floats in the source; they are
    modelled over `ℚ` (exact arithmetic).  `round(x, 1)` is modelled as
    decimal round-half-to-even to one decimal place (`round1`).
  * Generated `uuid` ids and prose `description` strings of mismatch
    records are omitted; every other field of the wire shape is kept.
  * Python `str(...)` applied to a numeric value is abstracted by
    `numStr : ℚ → String`.
-/

namespace GSTEngine

/-- `Severity` enum of `app/models/gst.py`. -/
inductive Severity where
  | LOW
  | MEDIUM
  | HIGH
  | CRITICAL
deriving DecidableEq

/-- The `MismatchType` enum members used by the reconciler
(`PERIOD_MISMATCH` and `GSTIN_ERROR` are never produced). -/
inductive MismatchType where
  | MISSING_IN_GSTR1
  | MISSING_IN_GSTR2B
  | VALUE_MISMATCH
  | RATE_MISMATCH
  | DUPLICATE_INVOICE
  | EXCESS_ITC
deriving DecidableEq

/-- An `Invoice` node's properties, as set by
`ingest_invoice_with_relations` in `graph_db.py`.  A numeric field the
source reads with `inv.get(field, 0)` is modelled as always present
(missing values are substituted by zero at the boundary). -/
structure Invoice where
  invoice_number : String
  supplier_gstin : String
  buyer_gstin : String
  taxable_value : ℚ
  cgst : ℚ
  sgst : ℚ
  igst : ℚ
  total_value : ℚ
  gst_rate : ℚ
  return_period : String
  source : String
deriving DecidableEq

/-- Python `str()` of a numeric value, abstracted. -/
def numStr (q : ℚ) : String := toString q

/-- A mismatch record (wire shape of `reconciler.py`, without the
generated `id` and the prose `description`). -/
structure Mismatch where
  mismatch_type : MismatchType
  severity : Severity
  supplier_gstin : String
  buyer_gstin : String
  invoice_number : String
  return_period : String
  field_name : Option String
  expected_value : String
  actual_value : String
  amount_difference : ℚ
deriving DecidableEq

/-- `_severity_for_amount` of `reconciler.py`. -/
def _severity_for_amount (amount : ℚ) : Severity :=
  if 500000 ≤ amount then .CRITICAL
  else if 100000 ≤ amount then .HIGH
  else if 10000 ≤ amount then .MEDIUM
  else .LOW

/-- One `GSTR3BReturn` node (summary return), as ingested by
`ingest_gstr3b` in `graph_db.py`. -/
structure Gstr3B where
  gstin : String
  return_period : String
  itc_claimed : ℚ
  itc_available : ℚ
deriving DecidableEq

/-- An `Invoice` node together with its containment links: one entry of
`outward_links` per `CONTAINS_OUTWARD` edge from a `GSTR1Return` (the
return's `return_period`), one entry of `inward_links` per
`CONTAINS_INWARD` edge from a `GSTR2BReturn` (the return's `gstin` and
`return_period`). -/
structure InvNode where
  inv : Invoice
  outward_links : List String
  inward_links : List (String × String)
deriving DecidableEq

/-- The slice of the Neo4j graph the reconciler queries. -/
structure GraphStore where
  invoices : List InvNode
  gstr3b : List Gstr3B
deriving DecidableEq

/-- Result rows of
`MATCH (g1:GSTR1Return {return_period: p})-[:CONTAINS_OUTWARD]->(inv1:Invoice) RETURN inv1`:
one row per `CONTAINS_OUTWARD` link from a period-`p` GSTR-1 return. -/
def outwardRows (s : GraphStore) (p : String) : List Invoice :=
  s.invoices.flatMap fun n =>
    (n.outward_links.filter fun q => decide (q = p)).map fun _ => n.inv

/-- Result rows of
`MATCH (g2b:GSTR2BReturn {return_period: p})-[:CONTAINS_INWARD]->(inv2:Invoice)`:
one row per `CONTAINS_INWARD` link from a period-`p` GSTR-2B return,
keeping the return's `gstin` (used by `find_excess_itc`). -/
def inwardRows (s : GraphStore) (p : String) : List (String × Invoice) :=
  s.invoices.flatMap fun n =>
    (n.inward_links.filter fun gq => decide (gq.2 = p)).map fun gq => (gq.1, n.inv)

/-- The `WHERE` clause shared by the two missing-invoice queries of
`reconciler.py`: the inward invoice agrees with the outward one on
invoice number, supplier gstin and buyer gstin. -/
def quadMatch (a b : Invoice) : Prop :=
  b.invoice_number = a.invoice_number ∧
  b.supplier_gstin = a.supplier_gstin ∧
  b.buyer_gstin = a.buyer_gstin

instance : DecidablePred fun ab : Invoice × Invoice => quadMatch ab.1 ab.2 :=
  fun _ => by unfold quadMatch; infer_instance

instance quadMatch.decidable (a b : Invoice) : Decidable (quadMatch a b) := by
  unfold quadMatch; infer_instance

/-- The mismatch dictionary built for an invoice in GSTR-1 with no
GSTR-2B counterpart. -/
def missing2bMismatch (p : String) (inv : Invoice) : Mismatch :=
  { mismatch_type := .MISSING_IN_GSTR2B
    severity := _severity_for_amount inv.total_value
    supplier_gstin := inv.supplier_gstin
    buyer_gstin := inv.buyer_gstin
    invoice_number := inv.invoice_number
    return_period := p
    field_name := none
    expected_value := numStr inv.total_value
    actual_value := "NOT FOUND"
    amount_difference := inv.total_value }

/-- The first query loop of `reconcile_gstr1_vs_gstr2b`: invoices in
GSTR-1 but missing from GSTR-2B. -/
def missing_in_gstr2b (s : GraphStore) (p : String) : List Mismatch :=
  ((outwardRows s p).filter fun inv1 =>
      !decide (∃ gi ∈ inwardRows s p, quadMatch inv1 gi.2)).map
    (missing2bMismatch p)

/-- The field list of the value-mismatch loop, with `inv.get(field, 0)`. -/
def fieldVal (f : String) (i : Invoice) : ℚ :=
  if f = "taxable_value" then i.taxable_value
  else if f = "cgst" then i.cgst
  else if f = "sgst" then i.sgst
  else i.igst

/-- One `VALUE_MISMATCH` record for a differing field of a matched pair. -/
def valueMismatch (p f : String) (inv1 inv2 : Invoice) : Mismatch :=
  { mismatch_type := .VALUE_MISMATCH
    severity := _severity_for_amount |fieldVal f inv1 - fieldVal f inv2|
    supplier_gstin := inv1.supplier_gstin
    buyer_gstin := inv1.buyer_gstin
    invoice_number := inv1.invoice_number
    return_period := p
    field_name := some f
    expected_value := numStr (fieldVal f inv1)
    actual_value := numStr (fieldVal f inv2)
    amount_difference := |fieldVal f inv1 - fieldVal f inv2| }

/-- The second query loop of `reconcile_gstr1_vs_gstr2b`: for every
(outward, inward) row pair matched on the quadruple with at least one
differing value field, one record per differing field of
`["taxable_value", "cgst", "sgst", "igst"]`. -/
def value_mismatches (s : GraphStore) (p : String) : List Mismatch :=
  (outwardRows s p).flatMap fun inv1 =>
    (inwardRows s p).flatMap fun gi =>
      if quadMatch inv1 gi.2 ∧
          (inv1.taxable_value ≠ gi.2.taxable_value ∨ inv1.cgst ≠ gi.2.cgst ∨
            inv1.sgst ≠ gi.2.sgst ∨ inv1.igst ≠ gi.2.igst) then
        ["taxable_value", "cgst", "sgst", "igst"].filterMap fun f =>
          if fieldVal f inv1 ≠ fieldVal f gi.2 then
            some (valueMismatch p f inv1 gi.2) else none
      else []

/-- One `RATE_MISMATCH` record (fixed severity HIGH, amount = absolute
difference of totals). -/
def rateMismatch (p : String) (inv1 inv2 : Invoice) : Mismatch :=
  { mismatch_type := .RATE_MISMATCH
    severity := .HIGH
    supplier_gstin := inv1.supplier_gstin
    buyer_gstin := inv1.buyer_gstin
    invoice_number := inv1.invoice_number
    return_period := p
    field_name := some "gst_rate"
    expected_value := numStr inv1.gst_rate
    actual_value := numStr inv2.gst_rate
    amount_difference := |inv1.total_value - inv2.total_value| }

/-- The third query loop of `reconcile_gstr1_vs_gstr2b`: pairs matched on
invoice number and supplier gstin only, with differing `gst_rate`. -/
def rate_mismatches (s : GraphStore) (p : String) : List Mismatch :=
  (outwardRows s p).flatMap fun inv1 =>
    (inwardRows s p).flatMap fun gi =>
      if inv1.invoice_number = gi.2.invoice_number ∧
          inv1.supplier_gstin = gi.2.supplier_gstin ∧
          inv1.gst_rate ≠ gi.2.gst_rate then
        [rateMismatch p inv1 gi.2]
      else []

/-- `reconcile_gstr1_vs_gstr2b` of `reconciler.py`: its three query loops
in order. -/
def reconcile_gstr1_vs_gstr2b (s : GraphStore) (p : String) : List Mismatch :=
  missing_in_gstr2b s p ++ value_mismatches s p ++ rate_mismatches s p

/-- The mismatch dictionary built for an invoice in GSTR-2B that the
supplier has not filed in GSTR-1. -/
def missing1Mismatch (p : String) (inv : Invoice) : Mismatch :=
  { mismatch_type := .MISSING_IN_GSTR1
    severity := _severity_for_amount inv.total_value
    supplier_gstin := inv.supplier_gstin
    buyer_gstin := inv.buyer_gstin
    invoice_number := inv.invoice_number
    return_period := p
    field_name := none
    expected_value := "PRESENT IN GSTR-1"
    actual_value := "NOT FOUND"
    amount_difference := inv.total_value }

/-- `reconcile_gstr2b_vs_gstr1` of `reconciler.py`: invoices in GSTR-2B
with no GSTR-1 counterpart on the same quadruple. -/
def reconcile_gstr2b_vs_gstr1 (s : GraphStore) (p : String) : List Mismatch :=
  (((inwardRows s p).map Prod.snd).filter fun inv2 =>
      !decide (∃ inv1 ∈ outwardRows s p, quadMatch inv2 inv1)).map
    (missing1Mismatch p)

/-- The `EXCESS_ITC` record of `find_excess_itc`. -/
def excessItcMismatch (p gstin : String) (claimed available : ℚ) : Mismatch :=
  { mismatch_type := .EXCESS_ITC
    severity := _severity_for_amount (claimed - available)
    supplier_gstin := ""
    buyer_gstin := gstin
    invoice_number := "AGGREGATE"
    return_period := p
    field_name := some "itc_claimed"
    expected_value := numStr available
    actual_value := numStr claimed
    amount_difference := claimed - available }

/-- `COALESCE(SUM(inv.cgst + inv.sgst + inv.igst), 0)` over the inward
invoices of the taxpayer's period-`p` GSTR-2B return. -/
def computedItc (s : GraphStore) (p gstin : String) : ℚ :=
  (((inwardRows s p).filter fun gi => decide (gi.1 = gstin)).map fun gi =>
    gi.2.cgst + gi.2.sgst + gi.2.igst).sum

/-- `find_excess_itc` of `reconciler.py`: for every period-`p` GSTR-3B
return, available ITC is the computed inward sum when that sum is
positive, else the return's self-reported `itc_available`; a mismatch is
emitted when `itc_claimed` exceeds it. -/
def find_excess_itc (s : GraphStore) (p : String) : List Mismatch :=
  (s.gstr3b.filter fun g => decide (g.return_period = p)).filterMap fun g =>
    let computed := computedItc s p g.gstin
    let available := if 0 < computed then computed else g.itc_available
    if available < g.itc_claimed then
      some (excessItcMismatch p g.gstin g.itc_claimed available)
    else none

/-- The grouping key of `find_duplicate_invoices`:
`(inv.invoice_number, inv.supplier_gstin)`. -/
def dupKey (i : Invoice) : String × String :=
  (i.invoice_number, i.supplier_gstin)

/-- The keys of all `Invoice` nodes whose `return_period` property is `p`
(one entry per node, regardless of which filing contains it). -/
def periodInvoiceKeys (s : GraphStore) (p : String) : List (String × String) :=
  ((s.invoices.map InvNode.inv).filter fun i => decide (i.return_period = p)).map dupKey

/-- The `DUPLICATE_INVOICE` record of `find_duplicate_invoices`. -/
def dupMismatch (p : String) (k : String × String) (cnt : ℕ) : Mismatch :=
  { mismatch_type := .DUPLICATE_INVOICE
    severity := .HIGH
    supplier_gstin := k.2
    buyer_gstin := ""
    invoice_number := k.1
    return_period := p
    field_name := some "invoice_number"
    expected_value := "1-2 occurrences"
    actual_value := toString cnt
    amount_difference := 0 }

/-- `find_duplicate_invoices` of `reconciler.py`: group the period's
`Invoice` nodes by `(invoice_number, supplier_gstin)` (Cypher
`WITH ... COUNT(*)`, one output row per distinct key) and keep the
groups whose count exceeds 2. -/
def find_duplicate_invoices (s : GraphStore) (p : String) : List Mismatch :=
  let keys := periodInvoiceKeys s p
  (keys.dedup.filter fun k => decide (2 < keys.count k)).map fun k =>
    dupMismatch p k (keys.count k)

/-- `reconcile_all` of `reconciler.py`: the four detectors concatenated. -/
def reconcile_all (s : GraphStore) (p : String) : List Mismatch :=
  reconcile_gstr1_vs_gstr2b s p ++ reconcile_gstr2b_vs_gstr1 s p ++
    find_excess_itc s p ++ find_duplicate_invoices s p

/-- `RiskLevel` enum of `app/models/gst.py`. -/
inductive RiskLevel where
  | LOW
  | MEDIUM
  | HIGH
  | CRITICAL
deriving DecidableEq

/-- Round half to even at integer precision (the tie rule of Python's
`round`). -/
def rhe (x : ℚ) : ℤ :=
  if x - ⌊x⌋ < 1/2 then ⌊x⌋
  else if 1/2 < x - ⌊x⌋ then ⌊x⌋ + 1
  else if 2 ∣ ⌊x⌋ then ⌊x⌋ else ⌊x⌋ + 1

/-- Python `round(x, 1)`: round to one decimal place, half to even. -/
def round1 (x : ℚ) : ℚ := (rhe (10 * x) : ℚ) / 10

/-- One result row of the taxpayer aggregation query at the top of
`calculate_all_vendor_risks` (`risk_model.py`): per-taxpayer counts of
distinct GSTR-1 returns, GSTR-3B returns, trade partners and supplied
invoices.  `legal_name` is `""` when the node has none (Python `None`). -/
structure TaxpayerRow where
  gstin : String
  legal_name : String
  gstr1_count : ℕ
  gstr3b_count : ℕ
  trade_partners : ℕ
  invoice_count : ℕ
deriving DecidableEq

/-- The `VendorRisk` record assembled per taxpayer in `risk_model.py`. -/
structure VendorRisk where
  gstin : String
  legal_name : String
  risk_score : ℚ
  risk_level : RiskLevel
  filing_rate : ℚ
  mismatch_count : ℕ
  total_invoices : ℕ
  circular_trade_flag : Bool
  risk_factors : List String
deriving DecidableEq

/-- `expected_filings = 12` of `risk_model.py`. -/
def expected_filings : ℕ := 12

/-- `filing_rate = min(100, ((gstr1_count + gstr3b_count) / max(1, expected_filings * 2)) * 100)`. -/
def filing_rate_of (g1 g3 : ℕ) : ℚ :=
  min 100 (((g1 : ℚ) + (g3 : ℚ)) / max 1 ((expected_filings : ℚ) * 2) * 100)

/-- The composite risk score of `calculate_all_vendor_risks`:
`0.25`-weighted filing gap, `0.30`-weighted capped mismatch density,
`0.25`-weighted circular-trade membership, `0.20`-weighted capped
mismatch volume, rounded to one decimal place. -/
def composite_risk_score (filing_rate : ℚ) (mc ic : ℕ) (circ : Bool) : ℚ :=
  let filing_score := max 0 (100 - filing_rate) * (25/100)
  let mismatch_score := min 100 ((mc : ℚ) / max 1 (ic : ℚ) * 100) * (30/100)
  let circular_score := if circ then 100 * (25/100) else 0
  let volume_score := min 100 ((mc : ℚ) * 5) * (20/100)
  round1 (filing_score + mismatch_score + circular_score + volume_score)

/-- The risk level thresholds of `calculate_all_vendor_risks`. -/
def risk_level_of (score : ℚ) : RiskLevel :=
  if 75 ≤ score then .CRITICAL
  else if 50 ≤ score then .HIGH
  else if 25 ≤ score then .MEDIUM
  else .LOW

/-- One vendor's record as the loop body of `calculate_all_vendor_risks`
builds it, given the row, the vendor's mismatch count and whether the
vendor's gstin is in the circular-trade set. -/
def mkVendorRisk (r : TaxpayerRow) (mc : ℕ) (circ : Bool) : VendorRisk :=
  let fr := filing_rate_of r.gstr1_count r.gstr3b_count
  let score := composite_risk_score fr mc r.invoice_count circ
  { gstin := r.gstin
    legal_name := if r.legal_name = "" then "Unknown" else r.legal_name
    risk_score := score
    risk_level := risk_level_of score
    filing_rate := round1 fr
    mismatch_count := mc
    total_invoices := r.invoice_count
    circular_trade_flag := circ
    risk_factors :=
      (if fr < 50 then ["Low filing compliance"] else []) ++
      (if 5 < mc then ["High mismatch frequency"] else []) ++
      (if circ then ["Involved in circular trading pattern"] else []) ++
      (if 0 < r.invoice_count ∧
          3/10 < (mc : ℚ) / max 1 (r.invoice_count : ℚ) then
        ["Mismatch rate exceeds 30%"] else []) }

/-- `_get_vendor_mismatch_count` of `risk_model.py`: over all invoice
nodes naming the gstin as supplier or buyer and contained in some GSTR-1
return (one row per `CONTAINS_OUTWARD` link, any period), count the rows
whose invoice has no `CONTAINS_INWARD`-contained invoice agreeing on
invoice number and supplier gstin (any period, buyer ignored). -/
def _get_vendor_mismatch_count (s : GraphStore) (gstin : String) : ℕ :=
  ((s.invoices.filter fun n =>
      decide ((n.inv.supplier_gstin = gstin ∨ n.inv.buyer_gstin = gstin) ∧
        ¬∃ m ∈ s.invoices, m.inward_links ≠ [] ∧
          m.inv.invoice_number = n.inv.invoice_number ∧
          m.inv.supplier_gstin = n.inv.supplier_gstin)).map fun n =>
    n.outward_links.length).sum

/-- The descending-score relation `sorted(..., key=..., reverse=True)`
sorts by.  Python's sort is stable, which `List.insertionSort` with this
relation reproduces exactly. -/
def scoreGe (a b : VendorRisk) : Prop := b.risk_score ≤ a.risk_score

instance : DecidableRel scoreGe := fun a b => by unfold scoreGe; infer_instance

instance : IsTotal VendorRisk scoreGe :=
  ⟨fun a b => le_total b.risk_score a.risk_score⟩

instance : IsTrans VendorRisk scoreGe :=
  ⟨fun _ _ _ hab hbc => le_trans hbc hab⟩

/-- `calculate_all_vendor_risks` of `risk_model.py`, over the aggregation
query's rows, the graph store (for the per-vendor mismatch counts) and
the circular-trade gstin set. -/
def calculate_all_vendor_risks (rows : List TaxpayerRow) (s : GraphStore)
    (circular_gstins : List String) : List VendorRisk :=
  List.insertionSort scoreGe
    (rows.map fun r =>
      mkVendorRisk r (_get_vendor_mismatch_count s r.gstin)
        (circular_gstins.contains r.gstin))

/-- `calculate_single_vendor_risk` of `risk_model.py`: the first record of
`calculate_all_vendor_risks` with the requested gstin, else `None`. -/
def calculate_single_vendor_risk (rows : List TaxpayerRow) (s : GraphStore)
    (circular_gstins : List String) (gstin : String) : Option VendorRisk :=
  (calculate_all_vendor_risks rows s circular_gstins).find? fun v =>
    decide (v.gstin = gstin)

/-- All variable-length path suffixes of the Cypher pattern
`-[:TRADES_WITH*k]->` starting at `cur`: each result is the node list of
a walk of exactly `k` edges of `E`, no edge used twice and none in
`used` (Cypher relationship uniqueness). -/
def walksFrom {α : Type} [DecidableEq α] (E : List (α × α)) :
    α → List (α × α) → ℕ → List (List α)
  | cur, _, 0 => [[cur]]
  | cur, used, k + 1 =>
    (E.filter fun e => decide (e.1 = cur ∧ e ∉ used)).flatMap fun e =>
      (walksFrom E e.2 (e :: used) k).map fun w => cur :: w

/-- `find_circular_trades` of `graph_db.py`:
`MATCH path = (a:Taxpayer)-[:TRADES_WITH*2..5]->(a) RETURN [n IN nodes(path) | n.gstin] ... ORDER BY cycle_length LIMIT 20`.
Every closed walk of 2 to 5 distinct `TRADES_WITH` edges is a result row
(Cypher forbids repeated relationships, not repeated nodes, and does not
deduplicate rotations); rows are ordered by length and capped at 20.
The engine's tie order within one length is unspecified; this embedding
fixes node-list order, then edge order. -/
def find_circular_trades {α : Type} [DecidableEq α]
    (V : List α) (E : List (α × α)) : List (List α) :=
  let walks := V.flatMap fun a =>
    (List.range' 2 4).flatMap fun k =>
      (walksFrom E a [] k).filter fun w => decide (w.getLast? = some a)
  (List.insertionSort (fun u w => u.length ≤ w.length) walks).take 20

/-- `_get_circular_trade_gstins` of `risk_model.py`: the set of gstins on
any detected cycle (a Python set; modelled as a deduplicated list, only
membership is consumed). -/
def _get_circular_trade_gstins (V : List String) (E : List (String × String)) :
    List String :=
  (find_circular_trades V E).flatten.dedup

/-- One entry of the reconcile API's in-memory `_results_store`. -/
structure CacheEntry where
  results : List Mismatch
  timestamp : String
  total : ℕ
  breakdown : List (MismatchType × ℕ)
deriving DecidableEq

/-- `_breakdown` of `api/reconcile.py`: per-type counts, keys in first
occurrence order (Python dict iteration order). -/
def mkBreakdown (ms : List Mismatch) : List (MismatchType × ℕ) :=
  (ms.map Mismatch.mismatch_type).dedup.map fun t =>
    (t, (ms.map Mismatch.mismatch_type).count t)

/-- `_results_store`: a period-keyed dictionary. -/
abbrev ResultsStore : Type := List (String × CacheEntry)

/-- Dictionary lookup (`return_period in _results_store` /
`_results_store[return_period]`). -/
def storeLookup (store : ResultsStore) (p : String) : Option CacheEntry :=
  (store.find? fun kv => decide (kv.1 = p)).map Prod.snd

/-- Dictionary assignment `_results_store[return_period] = entry`:
replaces the existing entry in place, else appends. -/
def storeSet (store : ResultsStore) (p : String) (e : CacheEntry) : ResultsStore :=
  if (storeLookup store p).isSome then
    store.map fun kv => if kv.1 = p then (p, e) else kv
  else store ++ [(p, e)]

/-- The JSON body `trigger_reconciliation` answers with. -/
inductive TriggerResp where
  | cached (return_period : String) (total : ℕ)
      (breakdown : List (MismatchType × ℕ)) (last_run : String)
  | completed (return_period : String) (total : ℕ)
      (breakdown : List (MismatchType × ℕ)) (last_run : String)
deriving DecidableEq

/-- The recompute-and-store tail of `trigger_reconciliation`: `recon` is
the outcome of the `reconcile_all` call (the store read may raise, which
the endpoint turns into an HTTP 500), `ts` the request timestamp. -/
def runAndStore (store : ResultsStore) (p : String)
    (recon : Except String (List Mismatch)) (ts : String) :
    ResultsStore × Except String TriggerResp :=
  match recon with
  | .error e => (store, .error e)
  | .ok ms =>
    (storeSet store p ⟨ms, ts, ms.length, mkBreakdown ms⟩,
      .ok (.completed p ms.length (mkBreakdown ms) ts))

/-- `trigger_reconciliation` of `api/reconcile.py`: with `force` unset and
a cached entry present, answer from the cache without recomputing;
otherwise run reconciliation and overwrite the period's entry. -/
def trigger_reconciliation (store : ResultsStore) (p : String) (force : Bool)
    (recon : Except String (List Mismatch)) (ts : String) :
    ResultsStore × Except String TriggerResp :=
  match storeLookup store p, force with
  | some c, false => (store, .ok (.cached p c.total c.breakdown c.timestamp))
  | _, _ => runAndStore store p recon ts

/-- The edge list of a node path: `pathEdges [a, b, c] = [(a, b), (b, c)]`
(used to state what a Cypher variable-length path traverses). -/
def pathEdges {α : Type} : List α → List (α × α)
  | a :: b :: rest => (a, b) :: pathEdges (b :: rest)
  | _ => []

/-- Written from the spec's words, for comparison with
`find_duplicate_invoices` (claim C3): group only the period's OUTWARD
invoices by `(invoice number, supplier id)`. -/
def specOutwardDuplicates (s : GraphStore) (p : String) : List Mismatch :=
  let keys := (outwardRows s p).map dupKey
  (keys.dedup.filter fun k => decide (2 < keys.count k)).map fun k =>
    dupMismatch p k (keys.count k)

/-- Written from the spec's words, for comparison with `find_excess_itc`
(claim C4): fall back to the summary's self-reported available figure
exactly when NO inward invoices exist for the taxpayer and period. -/
def specExcessItc (s : GraphStore) (p : String) : List Mismatch :=
  (s.gstr3b.filter fun g => decide (g.return_period = p)).filterMap fun g =>
    let invs := (inwardRows s p).filter fun gi => decide (gi.1 = g.gstin)
    let available :=
      if invs = [] then g.itc_available
      else (invs.map fun gi => gi.2.cgst + gi.2.sgst + gi.2.igst).sum
    if available < g.itc_claimed then
      some (excessItcMismatch p g.gstin g.itc_claimed available)
    else none

/-- Concrete outward invoice: supplier S1, buyer B1. -/
def invOutB1 : Invoice :=
  { invoice_number := "INV-1", supplier_gstin := "S1", buyer_gstin := "B1"
    taxable_value := 100, cgst := 9, sgst := 9, igst := 0
    total_value := 118, gst_rate := 18
    return_period := "012026", source := "GSTR1" }

/-- The same economic invoice as auto-drafted on the inward side, agreeing
with `invOutB1` on supplier, invoice number and period but naming buyer
B2. -/
def invInB2 : Invoice :=
  { invoice_number := "INV-1", supplier_gstin := "S1", buyer_gstin := "B2"
    taxable_value := 100, cgst := 9, sgst := 9, igst := 0
    total_value := 118, gst_rate := 18
    return_period := "012026", source := "GSTR2B" }

/-- Store for claim C2's counterexample: one outward node, one inward
node, agreeing on (supplier, invoice number, period) but not on buyer. -/
def storeC2 : GraphStore :=
  { invoices :=
      [⟨invOutB1, ["012026"], []⟩, ⟨invInB2, [], [("B2", "012026")]⟩]
    gstr3b := [] }

/-- An invoice node for the duplicate-filing scenarios. -/
def dupInv (tv : ℚ) : Invoice :=
  { invoice_number := "INV-9", supplier_gstin := "S1", buyer_gstin := "B1"
    taxable_value := tv, cgst := 0, sgst := 0, igst := 0
    total_value := tv, gst_rate := 0
    return_period := "012026", source := "GSTR2B" }

/-- Store for claim C3's counterexample: three invoice nodes of the period
share `(invoice_number, supplier_gstin)` but none of them is contained in
any GSTR-1 return (inward-only records). -/
def storeC3 : GraphStore :=
  { invoices :=
      [⟨dupInv 100, [], [("B1", "012026")]⟩,
       ⟨dupInv 200, [], [("B1", "012026")]⟩,
       ⟨dupInv 300, [], [("B1", "012026")]⟩]
    gstr3b := [] }

/-- An inward invoice whose three tax components are all zero. -/
def zeroTaxInv : Invoice :=
  { invoice_number := "INV-Z", supplier_gstin := "S1", buyer_gstin := "G1"
    taxable_value := 1000, cgst := 0, sgst := 0, igst := 0
    total_value := 1000, gst_rate := 0
    return_period := "012026", source := "GSTR2B" }

/-- Store for claim C4: taxpayer G1 has a summary return claiming 40000
with self-reported available 50000, and one inward invoice whose tax
components sum to zero. -/
def storeC4 : GraphStore :=
  { invoices := [⟨zeroTaxInv, [], [("G1", "012026")]⟩]
    gstr3b :=
      [{ gstin := "G1", return_period := "012026"
         itc_claimed := 40000, itc_available := 50000 }] }

/-- Summary return for the claim C4 witness (Scenario C). -/
def scenCg3b : Gstr3B :=
  { gstin := "G2", return_period := "012026"
    itc_claimed := 80000, itc_available := 0 }

/-- Store for the claim C4 witness (Scenario C): taxpayer G2 claims 80000
against inward tax components summing to 60000. -/
def storeScenC : GraphStore :=
  { invoices :=
      [⟨{ invoice_number := "INV-C", supplier_gstin := "S2", buyer_gstin := "G2"
          taxable_value := 300000, cgst := 30000, sgst := 30000, igst := 0
          total_value := 360000, gst_rate := 20
          return_period := "012026", source := "GSTR2B" }, [], [("G2", "012026")]⟩]
    gstr3b := [scenCg3b] }

/-- The empty graph store. -/
def emptyStore : GraphStore := { invoices := [], gstr3b := [] }

/-- Two taxpayer rows with identical counts (hence identical risk scores)
and different gstins, for claim C6's tie-order counterexample. -/
def rowA : TaxpayerRow :=
  { gstin := "A", legal_name := "Alpha", gstr1_count := 0, gstr3b_count := 0
    trade_partners := 0, invoice_count := 0 }

/-- See `rowA`. -/
def rowB : TaxpayerRow :=
  { gstin := "B", legal_name := "Beta", gstr1_count := 0, gstr3b_count := 0
    trade_partners := 0, invoice_count := 0 }

/-- Taxpayer set for claim C7's counterexample. -/
def cexV : List String := ["S1", "S2", "S3"]

/-- Trade edges S1 <-> S2 and S1 <-> S3. -/
def cexE : List (String × String) :=
  [("S1", "S2"), ("S2", "S1"), ("S1", "S3"), ("S3", "S1")]

/-- A sample mismatch record for the cache claims. -/
def sampleMismatch : Mismatch :=
  { mismatch_type := .EXCESS_ITC, severity := .LOW
    supplier_gstin := "", buyer_gstin := "G1"
    invoice_number := "AGGREGATE", return_period := "012026"
    field_name := some "itc_claimed", expected_value := "0"
    actual_value := "1", amount_difference := 1 }

/-- A cache entry predating the calls of the cache claims. -/
def oldEntry : CacheEntry :=
  { results := [], timestamp := "t0", total := 0, breakdown := [] }

/-- A results store already holding an entry for period 012026. -/
def cachedStore : ResultsStore := [("012026", oldEntry)]

/-- Claim C1: the severity assigned to a mismatch is a pure function of its
amount difference with exact boundaries: `a ≥ 500000` is CRITICAL,
`100000 ≤ a < 500000` is HIGH, `10000 ≤ a < 100000` is MEDIUM and
`a < 10000` is LOW; in particular 500000 is CRITICAL, 499999.99 is HIGH,
100000 is HIGH, 10000 is MEDIUM and 9999.99 is LOW. -/
theorem severity_for_amount_boundaries :
    ∀ a : ℚ,
      (_severity_for_amount a = .CRITICAL ↔ 500000 ≤ a) ∧
      (_severity_for_amount a = .HIGH ↔ 100000 ≤ a ∧ a < 500000) ∧
      (_severity_for_amount a = .MEDIUM ↔ 10000 ≤ a ∧ a < 100000) ∧
      (_severity_for_amount a = .LOW ↔ a < 10000) ∧
      _severity_for_amount 500000 = .CRITICAL ∧
      _severity_for_amount (499999 + 99/100) = .HIGH ∧
      _severity_for_amount 100000 = .HIGH ∧
      _severity_for_amount 10000 = .MEDIUM ∧
      _severity_for_amount (9999 + 99/100) = .LOW := by
  intro a
  refine ⟨?_, ?_, ?_, ?_, ?_, ?_, ?_, ?_, ?_⟩ <;>
    · unfold _severity_for_amount
      split_ifs <;>
        first
          | rfl
          | (simp_all <;> first | linarith | (intro h'; linarith))
          | (exfalso; norm_num at *)

theorem storeLookup_cons (k : String) (v : CacheEntry) (rest : ResultsStore)
    (p : String) :
    storeLookup ((k, v) :: rest) p = if k = p then some v else storeLookup rest p := by
  by_cases h : k = p <;> simp [storeLookup, List.find?_cons, h]

theorem storeLookup_replace_present (p : String) (e : CacheEntry) :
    ∀ store : ResultsStore, (storeLookup store p).isSome →
      storeLookup (store.map fun kv => if kv.1 = p then (p, e) else kv) p = some e := by
  intro store
  induction store with
  | nil => intro h; simp [storeLookup] at h
  | cons kv rest ih =>
    intro h
    by_cases hk : kv.1 = p
    · simp [hk, storeLookup_cons]
    · rw [storeLookup_cons, if_neg hk] at h
      simp only [List.map_cons, if_neg hk]
      rw [storeLookup_cons, if_neg hk]
      exact ih h

theorem storeLookup_replace_other (p : String) (e : CacheEntry) (q : String)
    (hq : q ≠ p) :
    ∀ store : ResultsStore,
      storeLookup (store.map fun kv => if kv.1 = p then (p, e) else kv) q =
        storeLookup store q := by
  intro store
  induction store with
  | nil => rfl
  | cons kv rest ih =>
    by_cases hk : kv.1 = p
    · simp only [List.map_cons, if_pos hk]
      rw [storeLookup_cons, storeLookup_cons, if_neg (fun h => hq h.symm),
        if_neg (fun h => hq ((hk ▸ h).symm))]
      exact ih
    · simp only [List.map_cons, if_neg hk]
      rw [storeLookup_cons, storeLookup_cons]
      by_cases hkq : kv.1 = q
      · simp [hkq]
      · rw [if_neg hkq, if_neg hkq]
        exact ih

theorem storeLookup_append_absent (p : String) (e : CacheEntry) :
    ∀ store : ResultsStore, storeLookup store p = none →
      storeLookup (store ++ [(p, e)]) p = some e := by
  intro store
  induction store with
  | nil => intro _; simp [storeLookup_cons]
  | cons kv rest ih =>
    intro h
    rw [storeLookup_cons] at h
    by_cases hk : kv.1 = p
    · rw [if_pos hk] at h; exact absurd h (by simp)
    · rw [if_neg hk] at h
      have : ((kv :: rest) ++ [(p, e)]) = kv :: (rest ++ [(p, e)]) := rfl
      rw [this, show kv = (kv.1, kv.2) from rfl, storeLookup_cons, if_neg hk]
      exact ih h

theorem storeLookup_append_other (p : String) (e : CacheEntry) (q : String)
    (hq : q ≠ p) :
    ∀ store : ResultsStore,
      storeLookup (store ++ [(p, e)]) q = storeLookup store q := by
  intro store
  induction store with
  | nil =>
    rw [List.nil_append, storeLookup_cons, if_neg (fun h => hq h.symm)]
  | cons kv rest ih =>
    have : ((kv :: rest) ++ [(p, e)]) = kv :: (rest ++ [(p, e)]) := rfl
    rw [this, show kv = (kv.1, kv.2) from rfl, storeLookup_cons, storeLookup_cons]
    by_cases hkq : kv.1 = q
    · simp [hkq]
    · rw [if_neg hkq, if_neg hkq]; exact ih

theorem storeLookup_storeSet_self (store : ResultsStore) (p : String)
    (e : CacheEntry) : storeLookup (storeSet store p e) p = some e := by
  unfold storeSet
  split_ifs with h
  · exact storeLookup_replace_present p e store h
  · exact storeLookup_append_absent p e store
      (Option.not_isSome_iff_eq_none.mp h)

theorem storeLookup_storeSet_other (store : ResultsStore) (p : String)
    (e : CacheEntry) (q : String) (hq : q ≠ p) :
    storeLookup (storeSet store p e) q = storeLookup store q := by
  unfold storeSet
  split_ifs with h
  · exact storeLookup_replace_other p e q hq store
  · exact storeLookup_append_other p e q hq store

/-- Claim C9: if reconciliation fails during a `Reconcile(period)` call
(e.g. an entity-store read failure), the call answers with the error and
the result cache is left exactly as it was — no partial write.  The
hypothesis restricts to calls that actually run the detectors (a
cache-hit short circuit never calls them). -/
theorem reconcile_failure_no_cache_write :
    ∀ (store : ResultsStore) (p : String) (force : Bool) (err ts : String),
      force = true ∨ storeLookup store p = none →
      trigger_reconciliation store p force (.error err) ts = (store, .error err) := by
  intro store p force err ts h
  unfold trigger_reconciliation runAndStore
  rcases h with h | h
  · subst h
    cases storeLookup store p <;> rfl
  · rw [h]

/-- Witness for claim C9 at a concrete input. -/
theorem reconcile_failure_no_cache_write_witness :
    trigger_reconciliation [] "012026" false (.error "store down") "t1" =
      ([], .error "store down") :=
  reconcile_failure_no_cache_write [] "012026" false "store down" "t1" (Or.inr rfl)

/-- Claim C8 as amended: a `Reconcile(period)` call recomputes only when
forced or when no cached entry exists; in that case the period's entry is
wholly replaced by the new computation (a full replace: the new entry is
exactly the new mismatch set with its breakdown, and entries of other
periods are untouched).  A non-forced call that finds a cached entry
returns it and writes nothing. -/
theorem reconcile_overwrite_semantics :
    ∀ (store : ResultsStore) (p : String) (force : Bool) (ms : List Mismatch)
      (ts : String),
      force = true ∨ storeLookup store p = none →
      (trigger_reconciliation store p force (.ok ms) ts).1 =
          storeSet store p ⟨ms, ts, ms.length, mkBreakdown ms⟩ ∧
      storeLookup (trigger_reconciliation store p force (.ok ms) ts).1 p =
          some ⟨ms, ts, ms.length, mkBreakdown ms⟩ ∧
      (∀ q, q ≠ p →
        storeLookup (trigger_reconciliation store p force (.ok ms) ts).1 q =
          storeLookup store q) ∧
      (trigger_reconciliation store p force (.ok ms) ts).2 =
          .ok (.completed p ms.length (mkBreakdown ms) ts) ∧
      (∀ c, storeLookup store p = some c →
        trigger_reconciliation store p false (.ok ms) ts =
          (store, .ok (.cached p c.total c.breakdown c.timestamp))) := by
  intro store p force ms ts h
  have hrun : trigger_reconciliation store p force (.ok ms) ts =
      (storeSet store p ⟨ms, ts, ms.length, mkBreakdown ms⟩,
        .ok (.completed p ms.length (mkBreakdown ms) ts)) := by
    unfold trigger_reconciliation runAndStore
    rcases h with h | h
    · subst h
      cases storeLookup store p <;> rfl
    · rw [h]
  refine ⟨by rw [hrun], ?_, ?_, by rw [hrun], ?_⟩
  · rw [hrun]
    exact storeLookup_storeSet_self store p _
  · intro q hq
    rw [hrun]
    exact storeLookup_storeSet_other store p _ q hq
  · intro c hc
    unfold trigger_reconciliation
    rw [hc]

/-- Witness for claim C8's amended statement at a concrete input. -/
theorem reconcile_overwrite_semantics_witness :
    storeLookup
        (trigger_reconciliation [] "012026" false (.ok [sampleMismatch]) "t1").1
        "012026" =
      some ⟨[sampleMismatch], "t1", [sampleMismatch].length,
        mkBreakdown [sampleMismatch]⟩ :=
  (reconcile_overwrite_semantics [] "012026" false [sampleMismatch] "t1"
    (Or.inr rfl)).2.1

/-- Counterexample to claim C8 as stated: a completing, non-forced call
for a period that already has a cache entry answers from the cache and
does not replace the entry with the newly computed mismatch set. -/
theorem reconcile_cached_no_overwrite_counterexample :
    trigger_reconciliation cachedStore "012026" false (.ok [sampleMismatch]) "t1" =
        (cachedStore, .ok (.cached "012026" 0 [] "t0")) ∧
    storeLookup cachedStore "012026" = some oldEntry ∧
    oldEntry.results ≠ [sampleMismatch] :=
  ⟨rfl, rfl, by decide⟩

/-- Claim C2 as amended: for every period, the missing-invoice detectors
identify invoices by the quadruple (supplier id, buyer id, invoice
number, period): an outward record is reported `MISSING_IN_GSTR2B`
exactly when no inward record of the period agrees with it on that
quadruple, and symmetrically for `MISSING_IN_GSTR1`; records differing in
any other field (the source filing included) are treated as the same
invoice. -/
theorem missing_match_key_is_quadruple :
    ∀ (s : GraphStore) (p : String),
      (∀ m, m ∈ missing_in_gstr2b s p ↔
        ∃ inv1 ∈ outwardRows s p,
          (¬∃ gi ∈ inwardRows s p, quadMatch inv1 gi.2) ∧
          m = missing2bMismatch p inv1) ∧
      (∀ m, m ∈ reconcile_gstr2b_vs_gstr1 s p ↔
        ∃ inv2 ∈ (inwardRows s p).map Prod.snd,
          (¬∃ inv1 ∈ outwardRows s p, quadMatch inv2 inv1) ∧
          m = missing1Mismatch p inv2) := by
  intro s p
  constructor
  · intro m
    unfold missing_in_gstr2b
    simp only [List.mem_map, List.mem_filter, Bool.not_eq_true',
      decide_eq_false_iff_not]
    constructor
    · rintro ⟨inv1, ⟨h1, h2⟩, rfl⟩
      exact ⟨inv1, h1, h2, rfl⟩
    · rintro ⟨inv1, h1, h2, rfl⟩
      exact ⟨inv1, ⟨h1, h2⟩, rfl⟩
  · intro m
    unfold reconcile_gstr2b_vs_gstr1
    simp only [List.mem_map, List.mem_filter, Bool.not_eq_true',
      decide_eq_false_iff_not]
    constructor
    · rintro ⟨inv2, ⟨h1, h2⟩, rfl⟩
      exact ⟨inv2, h1, h2, rfl⟩
    · rintro ⟨inv2, h1, h2, rfl⟩
      exact ⟨inv2, ⟨h1, h2⟩, rfl⟩

/-- Counterexample to claim C2 as stated: two records of the same period
agreeing on (supplier id, invoice number, period) but differing in buyer
id are NOT matched — the outward one is reported `MISSING_IN_GSTR2B` and
the inward one `MISSING_IN_GSTR1`. -/
theorem missing_triple_identity_counterexample :
    invOutB1.supplier_gstin = invInB2.supplier_gstin ∧
    invOutB1.invoice_number = invInB2.invoice_number ∧
    invOutB1.return_period = invInB2.return_period ∧
    invOutB1.buyer_gstin ≠ invInB2.buyer_gstin ∧
    invOutB1 ∈ outwardRows storeC2 "012026" ∧
    invInB2 ∈ (inwardRows storeC2 "012026").map Prod.snd ∧
    (missing_in_gstr2b storeC2 "012026").map Mismatch.mismatch_type =
      [.MISSING_IN_GSTR2B] ∧
    (reconcile_gstr2b_vs_gstr1 storeC2 "012026").map Mismatch.mismatch_type =
      [.MISSING_IN_GSTR1] := by
  decide

/-- Claim C3 as amended: the duplicate-filing detector groups ALL of the
period's invoice records (outward and inward alike, matched on the
invoice node's `return_period` property) by (invoice number, supplier
id), and for every group whose occurrence count exceeds 2 emits exactly
one `DUPLICATE_INVOICE` mismatch with fixed severity HIGH, amount
difference 0 and actual value equal to the occurrence count. -/
theorem duplicate_detector_grouping :
    ∀ (s : GraphStore) (p : String),
      ((find_duplicate_invoices s p).map fun m =>
        (m.invoice_number, m.supplier_gstin)).Nodup ∧
      (∀ k, k ∈ (find_duplicate_invoices s p).map
          (fun m => (m.invoice_number, m.supplier_gstin)) ↔
        2 < (periodInvoiceKeys s p).count k) ∧
      (∀ m ∈ find_duplicate_invoices s p,
        m.mismatch_type = .DUPLICATE_INVOICE ∧ m.severity = .HIGH ∧
        m.amount_difference = 0 ∧
        m.actual_value =
          toString ((periodInvoiceKeys s p).count
            (m.invoice_number, m.supplier_gstin))) := by
  intro s p
  have hmap : (find_duplicate_invoices s p).map
      (fun m => (m.invoice_number, m.supplier_gstin)) =
      (periodInvoiceKeys s p).dedup.filter fun k =>
        decide (2 < (periodInvoiceKeys s p).count k) := by
    unfold find_duplicate_invoices
    rw [List.map_map]
    have hcomp : ((fun m : Mismatch => (m.invoice_number, m.supplier_gstin)) ∘
        fun k => dupMismatch p k ((periodInvoiceKeys s p).count k)) =
        fun k => k := funext fun k => rfl
    rw [hcomp, List.map_id']
  refine ⟨?_, ?_, ?_⟩
  · rw [hmap]
    exact ((periodInvoiceKeys s p).nodup_dedup).filter _
  · intro k
    rw [hmap]
    simp only [List.mem_filter, List.mem_dedup, decide_eq_true_eq]
    constructor
    · rintro ⟨_, h⟩
      exact h
    · intro h
      have hpos : 0 < (periodInvoiceKeys s p).count k := by omega
      exact ⟨List.count_pos_iff.mp hpos, h⟩
  · intro m hm
    unfold find_duplicate_invoices at hm
    simp only [List.mem_map, List.mem_filter] at hm
    obtain ⟨k, ⟨hkd, hkc⟩, rfl⟩ := hm
    exact ⟨rfl, rfl, rfl, rfl⟩

/-- Counterexample to claim C3 as stated: a period with three inward-only
invoice records sharing (invoice number, supplier id) — and no outward
invoice at all — still produces one `DUPLICATE_INVOICE` (severity HIGH,
actual value "3", amount 0), while grouping only outward invoices as the
claim states would produce none. -/
theorem duplicate_outward_only_counterexample :
    outwardRows storeC3 "012026" = [] ∧
    specOutwardDuplicates storeC3 "012026" = [] ∧
    (periodInvoiceKeys storeC3 "012026").count ("INV-9", "S1") = 3 ∧
    (find_duplicate_invoices storeC3 "012026").map
        (fun m => (m.mismatch_type, m.severity, m.actual_value,
          m.amount_difference)) =
      [(.DUPLICATE_INVOICE, .HIGH, "3", 0)] := by
  decide

theorem excess_itc_mem_elim (s : GraphStore) (p : String) {m : Mismatch}
    (hm : m ∈ find_excess_itc s p) :
    ∃ g2 ∈ s.gstr3b.filter fun x => decide (x.return_period = p),
      (if 0 < computedItc s p g2.gstin then computedItc s p g2.gstin
        else g2.itc_available) < g2.itc_claimed ∧
      m = excessItcMismatch p g2.gstin g2.itc_claimed
        (if 0 < computedItc s p g2.gstin then computedItc s p g2.gstin
          else g2.itc_available) := by
  unfold find_excess_itc at hm
  rw [List.mem_filterMap] at hm
  obtain ⟨g2, hg2, hf⟩ := hm
  dsimp only at hf
  by_cases hlt : (if 0 < computedItc s p g2.gstin then computedItc s p g2.gstin
      else g2.itc_available) < g2.itc_claimed
  · rw [if_pos hlt] at hf
    exact ⟨g2, hg2, hlt, (Option.some.inj hf).symm⟩
  · rw [if_neg hlt] at hf
    cases hf

theorem excess_itc_mem_intro (s : GraphStore) (p : String) {g2 : Gstr3B}
    (hg2 : g2 ∈ s.gstr3b.filter fun x => decide (x.return_period = p))
    (hlt : (if 0 < computedItc s p g2.gstin then computedItc s p g2.gstin
      else g2.itc_available) < g2.itc_claimed) :
    excessItcMismatch p g2.gstin g2.itc_claimed
        (if 0 < computedItc s p g2.gstin then computedItc s p g2.gstin
          else g2.itc_available) ∈ find_excess_itc s p := by
  unfold find_excess_itc
  rw [List.mem_filterMap]
  refine ⟨g2, hg2, ?_⟩
  dsimp only
  rw [if_pos hlt]

/-- Claim C4 as amended: for every taxpayer with a Summary (GSTR-3B)
return in the period, the excess-credit detector computes available
credit as the sum of the three tax components over the taxpayer's inward
invoices for the period, falling back to the Summary's self-reported
available figure exactly when that computed sum is NOT positive (in
particular when no inward invoices exist), and emits one `EXCESS_CREDIT`
mismatch if and only if claimed credit exceeds available credit, with
amount difference claimed − available. -/
theorem excess_itc_emission :
    ∀ (s : GraphStore) (p : String) (g : Gstr3B),
      ((s.gstr3b.filter fun x => decide (x.return_period = p)).map
        Gstr3B.gstin).Nodup →
      g ∈ s.gstr3b → g.return_period = p →
      ((∃ m ∈ find_excess_itc s p, m.buyer_gstin = g.gstin) ↔
        (if 0 < computedItc s p g.gstin then computedItc s p g.gstin
          else g.itc_available) < g.itc_claimed) ∧
      (∀ m ∈ find_excess_itc s p, m.buyer_gstin = g.gstin →
        m = excessItcMismatch p g.gstin g.itc_claimed
          (if 0 < computedItc s p g.gstin then computedItc s p g.gstin
            else g.itc_available)) := by
  intro s p g hnd hg hgp
  have hmem : g ∈ s.gstr3b.filter fun x => decide (x.return_period = p) :=
    List.mem_filter.mpr ⟨hg, by simp [hgp]⟩
  have huniq : ∀ g2 ∈ s.gstr3b.filter fun x => decide (x.return_period = p),
      g2.gstin = g.gstin → g2 = g := fun g2 hg2 he =>
    List.inj_on_of_nodup_map hnd hg2 hmem he
  constructor
  · constructor
    · rintro ⟨m, hm, hbg⟩
      obtain ⟨g2, hg2, hlt, rfl⟩ := excess_itc_mem_elim s p hm
      have : g2 = g := huniq g2 hg2 hbg
      subst this
      exact hlt
    · intro hlt
      exact ⟨_, excess_itc_mem_intro s p hmem hlt, rfl⟩
  · intro m hm hbg
    obtain ⟨g2, hg2, hlt, rfl⟩ := excess_itc_mem_elim s p hm
    have : g2 = g := huniq g2 hg2 hbg
    subst this
    rfl

/-- Witness for claim C4's amended statement: Scenario C (claimed 80000
against a computed inward sum of 60000). -/
theorem excess_itc_emission_witness :
    (∃ m ∈ find_excess_itc storeScenC "012026",
      m.buyer_gstin = scenCg3b.gstin) ↔
    (if 0 < computedItc storeScenC "012026" scenCg3b.gstin then
      computedItc storeScenC "012026" scenCg3b.gstin
      else scenCg3b.itc_available) < scenCg3b.itc_claimed :=
  (excess_itc_emission storeScenC "012026" scenCg3b (by decide) (by decide)
    rfl).1

/-- Counterexample to claim C4 as stated: taxpayer G1 HAS an inward
invoice for the period (so, by the claim, no fallback should happen and
available credit would be the component sum 0 < claimed 40000, emitting
one mismatch), yet the code falls back to the self-reported 50000 because
the computed sum is not positive, and emits nothing. -/
theorem excess_itc_fallback_counterexample :
    inwardRows storeC4 "012026" ≠ [] ∧
    find_excess_itc storeC4 "012026" = [] ∧
    (specExcessItc storeC4 "012026").map
        (fun m => (m.mismatch_type, m.amount_difference)) =
      [(.EXCESS_ITC, 40000)] := by
  have hci : computedItc storeC4 "012026" "G1" = 0 := by
    norm_num [computedItc, inwardRows, storeC4, zeroTaxInv]
  have hfil : storeC4.gstr3b.filter (fun g => decide (g.return_period = "012026")) =
      storeC4.gstr3b := by decide
  have hg : storeC4.gstr3b =
      [{ gstin := "G1", return_period := "012026"
         itc_claimed := 40000, itc_available := 50000 }] := rfl
  have hinw : inwardRows storeC4 "012026" = [("G1", zeroTaxInv)] := by decide
  refine ⟨by decide, ?_, ?_⟩
  · unfold find_excess_itc
    rw [hfil, hg]
    simp only [List.filterMap_cons, List.filterMap_nil]
    try dsimp only
    rw [hci]
    norm_num
  · unfold specExcessItc
    rw [hfil, hg]
    simp only [List.filterMap_cons, List.filterMap_nil]
    try dsimp only
    rw [hinw]
    norm_num [zeroTaxInv, excessItcMismatch]

theorem floor_le_rhe (x : ℚ) : ⌊x⌋ ≤ rhe x := by
  unfold rhe
  split_ifs <;> omega

theorem rhe_le_floor_add_one (x : ℚ) : rhe x ≤ ⌊x⌋ + 1 := by
  unfold rhe
  split_ifs <;> omega

theorem rhe_intCast (n : ℤ) : rhe (n : ℚ) = n := by
  unfold rhe
  rw [Int.floor_intCast, sub_self]
  norm_num

theorem rhe_mono {x y : ℚ} (h : x ≤ y) : rhe x ≤ rhe y := by
  rcases lt_or_eq_of_le (Int.floor_mono h) with hlt | heq
  · calc rhe x ≤ ⌊x⌋ + 1 := rhe_le_floor_add_one x
      _ ≤ ⌊y⌋ := by omega
      _ ≤ rhe y := floor_le_rhe y
  · unfold rhe
    rw [← heq]
    split_ifs <;> first | omega | linarith

theorem rhe_le_of_le {x : ℚ} {n : ℤ} (h : x ≤ (n : ℚ)) : rhe x ≤ n := by
  have := rhe_mono h
  rwa [rhe_intCast] at this

theorem le_rhe_of_le {n : ℤ} {x : ℚ} (h : (n : ℚ) ≤ x) : n ≤ rhe x := by
  have := rhe_mono h
  rwa [rhe_intCast] at this

theorem round1_mono {x y : ℚ} (h : x ≤ y) : round1 x ≤ round1 y := by
  unfold round1
  have h10 : (10 : ℚ) * x ≤ 10 * y := by linarith
  have hc : ((rhe (10 * x) : ℤ) : ℚ) ≤ ((rhe (10 * y) : ℤ) : ℚ) :=
    Int.cast_le.mpr (rhe_mono h10)
  linarith

theorem round1_bounds {x : ℚ} (h0 : 0 ≤ x) (h1 : x ≤ 100) :
    0 ≤ round1 x ∧ round1 x ≤ 100 := by
  unfold round1
  have hl : (0 : ℤ) ≤ rhe (10 * x) := le_rhe_of_le (by push_cast; linarith)
  have hu : rhe (10 * x) ≤ (1000 : ℤ) := rhe_le_of_le (by push_cast; linarith)
  have hlq : (0 : ℚ) ≤ ((rhe (10 * x) : ℤ) : ℚ) := by exact_mod_cast hl
  have huq : ((rhe (10 * x) : ℤ) : ℚ) ≤ 1000 := by exact_mod_cast hu
  constructor <;> linarith

theorem filing_rate_of_bounds (g1 g3 : ℕ) :
    0 ≤ filing_rate_of g1 g3 ∧ filing_rate_of g1 g3 ≤ 100 := by
  unfold filing_rate_of expected_filings
  refine ⟨le_min (by norm_num) ?_, min_le_left _ _⟩
  positivity

/-- Claim C5: for every combination of filing counts, mismatch count,
invoice count and circular-trade flag, the composite vendor risk score
lies in [0, 100]; and holding filing counts, invoice count and
circular-trade membership fixed, the score is non-decreasing as the
mismatch count increases. -/
theorem risk_score_bounds_and_monotone :
    ∀ (g1 g3 ic : ℕ) (circ : Bool) (mc mc' : ℕ), mc ≤ mc' →
      0 ≤ composite_risk_score (filing_rate_of g1 g3) mc ic circ ∧
      composite_risk_score (filing_rate_of g1 g3) mc ic circ ≤ 100 ∧
      composite_risk_score (filing_rate_of g1 g3) mc ic circ ≤
        composite_risk_score (filing_rate_of g1 g3) mc' ic circ := by
  intro g1 g3 ic circ mc mc' hmc
  obtain ⟨hfr0, hfr1⟩ := filing_rate_of_bounds g1 g3
  set fr := filing_rate_of g1 g3 with hfrdef
  have comp_bounds : ∀ m : ℕ,
      0 ≤ max 0 (100 - fr) * (25/100) +
          min 100 ((m : ℚ) / max 1 (ic : ℚ) * 100) * (30/100) +
          (if circ then (100 : ℚ) * (25/100) else 0) +
          min 100 ((m : ℚ) * 5) * (20/100) ∧
      max 0 (100 - fr) * (25/100) +
          min 100 ((m : ℚ) / max 1 (ic : ℚ) * 100) * (30/100) +
          (if circ then (100 : ℚ) * (25/100) else 0) +
          min 100 ((m : ℚ) * 5) * (20/100) ≤ 100 := by
    intro m
    have hA0 : (0 : ℚ) ≤ max 0 (100 - fr) * (25/100) := by positivity
    have hA1 : max 0 (100 - fr) * (25/100) ≤ 25 := by
      have : max 0 (100 - fr) ≤ 100 := max_le (by norm_num) (by linarith)
      linarith
    have hB0 : (0 : ℚ) ≤ min 100 ((m : ℚ) / max 1 (ic : ℚ) * 100) * (30/100) := by
      refine mul_nonneg (le_min (by norm_num) (by positivity)) (by norm_num)
    have hB1 : min 100 ((m : ℚ) / max 1 (ic : ℚ) * 100) * (30/100) ≤ 30 := by
      have := min_le_left (100 : ℚ) ((m : ℚ) / max 1 (ic : ℚ) * 100)
      linarith
    have hC0 : (0 : ℚ) ≤ (if circ then (100 : ℚ) * (25/100) else 0) := by
      split_ifs <;> norm_num
    have hC1 : (if circ then (100 : ℚ) * (25/100) else 0) ≤ 25 := by
      split_ifs <;> norm_num
    have hD0 : (0 : ℚ) ≤ min 100 ((m : ℚ) * 5) * (20/100) := by
      refine mul_nonneg (le_min (by norm_num) (by positivity)) (by norm_num)
    have hD1 : min 100 ((m : ℚ) * 5) * (20/100) ≤ 20 := by
      have := min_le_left (100 : ℚ) ((m : ℚ) * 5)
      linarith
    constructor <;> linarith
  simp only [composite_risk_score]
  obtain ⟨hs0, hs1⟩ := comp_bounds mc
  obtain ⟨hb0, hb1⟩ := round1_bounds hs0 hs1
  refine ⟨hb0, hb1, ?_⟩
  apply round1_mono
  have hcast : (mc : ℚ) ≤ (mc' : ℚ) := Nat.cast_le.mpr hmc
  gcongr

/-- Witness for claim C5 at concrete counts. -/
theorem risk_score_bounds_and_monotone_witness :
    0 ≤ composite_risk_score (filing_rate_of 1 2) 3 4 true ∧
    composite_risk_score (filing_rate_of 1 2) 3 4 true ≤ 100 ∧
    composite_risk_score (filing_rate_of 1 2) 3 4 true ≤
      composite_risk_score (filing_rate_of 1 2) 5 4 true :=
  risk_score_bounds_and_monotone 1 2 4 true 3 5 (by decide)

/-- Claim C6 as amended: the list `ScoreAll` returns is sorted in
descending order of risk score and is a permutation of the per-row vendor
records; the relative order of equal scores follows the Entity Store's
row enumeration order (Python's stable sort), not taxpayer id. -/
theorem vendor_risks_sorted_desc :
    ∀ (rows : List TaxpayerRow) (s : GraphStore) (circular_gstins : List String),
      (calculate_all_vendor_risks rows s circular_gstins).Sorted scoreGe ∧
      (calculate_all_vendor_risks rows s circular_gstins).Perm
        (rows.map fun r =>
          mkVendorRisk r (_get_vendor_mismatch_count s r.gstin)
            (circular_gstins.contains r.gstin)) := by
  intro rows s circ
  exact ⟨List.sorted_insertionSort scoreGe _, List.perm_insertionSort scoreGe _⟩

/-- Counterexample to claim C6 as stated: two vendors with equal risk
scores and distinct taxpayer ids keep the store's enumeration order —
reversing the enumeration reverses the output — so ties are not ordered
by taxpayer id and the output order is not a function of the store's
contents alone. -/
theorem vendor_risks_tie_order_counterexample :
    calculate_all_vendor_risks [rowA, rowB] emptyStore [] =
        [mkVendorRisk rowA 0 false, mkVendorRisk rowB 0 false] ∧
    calculate_all_vendor_risks [rowB, rowA] emptyStore [] =
        [mkVendorRisk rowB 0 false, mkVendorRisk rowA 0 false] ∧
    (mkVendorRisk rowA 0 false).risk_score =
      (mkVendorRisk rowB 0 false).risk_score ∧
    (mkVendorRisk rowA 0 false).gstin ≠ (mkVendorRisk rowB 0 false).gstin := by
  have hs : (mkVendorRisk rowA 0 false).risk_score =
      (mkVendorRisk rowB 0 false).risk_score := rfl
  refine ⟨?_, ?_, hs, by decide⟩
  · simp only [calculate_all_vendor_risks, List.map, List.insertionSort,
      List.orderedInsert]
    split_ifs with h
    · rfl
    · exact absurd (le_of_eq hs.symm) h
  · simp only [calculate_all_vendor_risks, List.map, List.insertionSort,
      List.orderedInsert]
    split_ifs with h
    · rfl
    · exact absurd (le_of_eq hs) h

theorem walksFrom_spec {α : Type} [DecidableEq α] (E : List (α × α)) :
    ∀ (k : ℕ) (cur : α) (used : List (α × α)) (w : List α),
      w ∈ walksFrom E cur used k →
      w.length = k + 1 ∧ w.head? = some cur ∧
      (∀ e ∈ pathEdges w, e ∈ E ∧ e ∉ used) ∧ (pathEdges w).Nodup := by
  intro k
  induction k with
  | zero =>
    intro cur used w hw
    simp only [walksFrom, List.mem_singleton] at hw
    subst hw
    refine ⟨rfl, rfl, ?_, ?_⟩ <;> simp [pathEdges]
  | succ n ih =>
    intro cur used w hw
    simp only [walksFrom, List.mem_flatMap, List.mem_map, List.mem_filter,
      decide_eq_true_eq] at hw
    obtain ⟨e, ⟨heE, hcur, hused⟩, w', hw', rfl⟩ := hw
    obtain ⟨hlen, hhead, hedges, hnd⟩ := ih e.2 (e :: used) w' hw'
    cases w' with
    | nil => cases hhead
    | cons b rest =>
      have hb : b = e.2 := by simpa using hhead
      subst hb
      have hpe : pathEdges (cur :: e.2 :: rest) =
          (cur, e.2) :: pathEdges (e.2 :: rest) := rfl
      have he : (cur, e.2) = e := by
        rw [← hcur]
      refine ⟨?_, rfl, ?_, ?_⟩
      · simp only [List.length_cons] at hlen ⊢
        omega
      · intro e' he'
        rw [hpe] at he'
        rcases List.mem_cons.mp he' with rfl | hmem
        · rw [he]
          exact ⟨heE, hused⟩
        · obtain ⟨h1, h2⟩ := hedges e' hmem
          exact ⟨h1, fun hc => h2 (List.mem_cons_of_mem e hc)⟩
      · rw [hpe]
        refine List.nodup_cons.mpr ⟨?_, hnd⟩
        intro hc
        rw [he] at hc
        exact (hedges e hc).2 (List.mem_cons_self e used)

/-- Claim C7 as amended: every result of `FindCircularTrades` is a closed
walk of 2 to 5 `TRADES_WITH` edges returning to its start with no edge
repeated (a closed trail) — but nodes may repeat, so the walk need not be
a simple cycle — and rotations are not deduplicated: the same cycle can
be returned once per starting node; the output is capped at 20 rows. -/
theorem circular_trades_closed_trails :
    ∀ {α : Type} [DecidableEq α] (V : List α) (E : List (α × α)) (w : List α),
      w ∈ find_circular_trades V E →
      w.head? = w.getLast? ∧ 3 ≤ w.length ∧ w.length ≤ 6 ∧
      (∀ e ∈ pathEdges w, e ∈ E) ∧ (pathEdges w).Nodup ∧
      (find_circular_trades V E).length ≤ 20 := by
  intro α _ V E w hw
  have hlen20 : (find_circular_trades V E).length ≤ 20 := by
    unfold find_circular_trades
    exact List.length_take_le 20 _
  unfold find_circular_trades at hw
  have hw2 := List.take_subset 20 _ hw
  rw [(List.perm_insertionSort _ _).mem_iff] at hw2
  simp only [List.mem_flatMap, List.mem_filter, decide_eq_true_eq] at hw2
  obtain ⟨a, _, k, hk, hwk, hlast⟩ := hw2
  rw [List.mem_range'_1] at hk
  obtain ⟨hlen, hhead, hedges, hnd⟩ := walksFrom_spec E k a [] w hwk
  refine ⟨?_, ?_, ?_, fun e he => (hedges e he).1, hnd, hlen20⟩
  · rw [hhead, hlast]
  · omega
  · omega

/-- Witness for claim C7's amended statement at a concrete graph. -/
theorem circular_trades_closed_trails_witness :
    (["S1", "S2", "S1"] : List String).head? = ["S1", "S2", "S1"].getLast? ∧
    3 ≤ (["S1", "S2", "S1"] : List String).length ∧
    (["S1", "S2", "S1"] : List String).length ≤ 6 ∧
    (∀ e ∈ pathEdges ["S1", "S2", "S1"], e ∈ cexE) ∧
    (pathEdges ["S1", "S2", "S1"]).Nodup ∧
    (find_circular_trades cexV cexE).length ≤ 20 :=
  circular_trades_closed_trails cexV cexE ["S1", "S2", "S1"] (by decide)

/-- Counterexample to claim C7 as stated: the detector returns the same
2-cycle once per starting node (two rotations of one another) and also
returns a length-4 closed walk that visits node S1 twice (not a simple
cycle). -/
theorem circular_trades_rotation_counterexample :
    ["S1", "S2", "S1"] ∈ find_circular_trades cexV cexE ∧
    ["S2", "S1", "S2"] ∈ find_circular_trades cexV cexE ∧
    ["S2", "S1", "S2"].dropLast = (["S1", "S2", "S1"].dropLast).rotate 1 ∧
    ["S1", "S2", "S1", "S3", "S1"] ∈ find_circular_trades cexV cexE ∧
    ¬ (["S1", "S2", "S1", "S3", "S1"].dropLast).Nodup := by
  decide

theorem vendorRisk_find_unique (g : String) :
    ∀ l : List VendorRisk, (l.map VendorRisk.gstin).Nodup →
      ∀ r ∈ l, r.gstin = g →
        l.find? (fun v => decide (v.gstin = g)) = some r := by
  intro l
  induction l with
  | nil => intro _ r hr; cases hr
  | cons a t ih =>
    intro hnd r hr hg
    rw [List.map_cons, List.nodup_cons] at hnd
    obtain ⟨hna, hndt⟩ := hnd
    by_cases ha : a.gstin = g
    · rw [List.find?_cons_of_pos _ (by simp [ha])]
      rcases List.mem_cons.mp hr with rfl | hrt
      · rfl
      · exfalso
        apply hna
        have hra : r.gstin = a.gstin := hg.trans ha.symm
        exact hra ▸ List.mem_map_of_mem VendorRisk.gstin hrt
    · rw [List.find?_cons_of_neg _ (by simp [ha])]
      rcases List.mem_cons.mp hr with rfl | hrt
      · exact absurd hg ha
      · exact ih hndt r hrt hg

/-- Claim C10: for every taxpayer id present in the store,
`ScoreOne(id)` returns exactly the record `ScoreAll` produces for that
id, and for an id not present it returns `None` rather than raising: the
single-vendor operation is a lookup refinement of the all-vendors
computation.  (Gstin uniqueness holds in the store by the `Taxpayer.gstin`
uniqueness constraint of `create_constraints`.) -/
theorem single_vendor_refines_all :
    ∀ (rows : List TaxpayerRow) (s : GraphStore) (circ : List String)
      (g : String),
      (rows.map TaxpayerRow.gstin).Nodup →
      (∀ r ∈ calculate_all_vendor_risks rows s circ, r.gstin = g →
        calculate_single_vendor_risk rows s circ g = some r) ∧
      ((∀ row ∈ rows, row.gstin ≠ g) →
        calculate_single_vendor_risk rows s circ g = none) := by
  intro rows s circ g hnd
  have hperm : (calculate_all_vendor_risks rows s circ).Perm
      (rows.map fun r =>
        mkVendorRisk r (_get_vendor_mismatch_count s r.gstin)
          (circ.contains r.gstin)) := List.perm_insertionSort _ _
  have hcomp : VendorRisk.gstin ∘ (fun r : TaxpayerRow =>
      mkVendorRisk r (_get_vendor_mismatch_count s r.gstin)
        (circ.contains r.gstin)) = TaxpayerRow.gstin := funext fun r => rfl
  have hmapnd : ((calculate_all_vendor_risks rows s circ).map
      VendorRisk.gstin).Nodup := by
    rw [(hperm.map VendorRisk.gstin).nodup_iff, List.map_map, hcomp]
    exact hnd
  constructor
  · intro r hr hg
    exact vendorRisk_find_unique g _ hmapnd r hr hg
  · intro hnone
    apply List.find?_eq_none.mpr
    intro v hv
    obtain ⟨row, hrow, rfl⟩ := List.mem_map.mp (hperm.subset hv)
    simpa using hnone row hrow

/-- Witness for claim C10: a one-vendor store, looked up by its id. -/
theorem single_vendor_refines_all_witness :
    calculate_single_vendor_risk [rowA] emptyStore [] "A" =
      some (mkVendorRisk rowA 0 false) :=
  (single_vendor_refines_all [rowA] emptyStore [] "A" (by decide)).1
    (mkVendorRisk rowA 0 false)
    (show mkVendorRisk rowA 0 false ∈ [mkVendorRisk rowA 0 false] from
      List.mem_singleton_self _)
    rfl

end GSTEngine
